import Mathlib

/-!
Verification development for the rtsp-to-webrtc relay (`src/main.rs`).

The Rust program is shallowly embedded here:
* stream discovery and codec/quality selection (`available_video_streams`,
  `available_audio_streams`, the sort comparators, `select_video`);
* the concurrent session registry (a `dashmap`-like association list with
  `insertEntry` / `removeEntry`, each of which is atomic in `dashmap`);
* the WHEP signaling handlers (`SDPOffer_from_request`, `whep_offer`,
  `whep_delete`, `SDPAnswer_into_response`);
* the ingest loop with its bounded non-blocking channels (`ingest_step`,
  `try_send`) and the per-kind writer tasks (`writer_loop`).

External library calls (SDP parsing by webrtc-rs, answer generation, the
peer-connection object) are passed in as abstract function parameters, as
the design treats them as black boxes.
-/

namespace RtspToWebrtc

/-! ### Stream descriptors (retina `Stream` surface used by `main`) -/

/-- Parameters attached to an upstream stream, mirroring retina's
`ParametersRef`: the code only ever inspects the `Video` case, reading the
pixel dimensions; all other parameter kinds are collapsed into `other`. -/
inductive ParametersRef where
  | video (pixel_dimensions : Nat × Nat)
  | other
deriving DecidableEq, Repr

/-- The fields of an upstream-advertised stream that `main` reads:
`stream.media()`, `stream.encoding_name()` and `stream.parameters()`. -/
structure StreamDescriptor where
  media : String
  encoding_name : String
  parameters : Option ParametersRef
deriving DecidableEq, Repr

/-- Video codec priorities (lower number = higher priority), from `main.rs`:
`[("h265", 1), ("h264", 2), ("vp9", 3), ("vp8", 4)]`. -/
def VIDEO_CODEC_PRIORITY : List (String × Nat) :=
  [("h265", 1), ("h264", 2), ("vp9", 3), ("vp8", 4)]

/-- Audio codec priorities (lower number = higher priority), from `main.rs`:
`[("opus", 1), ("pcmu", 2), ("pcma", 3)]`. -/
def AUDIO_CODEC_PRIORITY : List (String × Nat) :=
  [("opus", 1), ("pcmu", 2), ("pcma", 3)]

/-- Get codec priority from the list (`get_codec_priority` in `main.rs`);
encodings absent from the list get the sentinel 100. -/
def get_codec_priority (encoding_name : String) (priority_list : List (String × Nat)) : Nat :=
  ((priority_list.find? (fun p => p.1 == encoding_name)).map (fun p => p.2)).getD 100

/-- Modulus of Rust's `u32` arithmetic. -/
def U32_MOD : Nat := 4294967296

/-- Pixel area used by the video sort comparator: `pixel_dimensions()` yields
a `(u32, u32)` pair, so `w * h` is a `u32` product — in release builds it
wraps modulo 2^32 (a debug build would panic on overflow instead); streams
without parsed video parameters count as area 0 (the `match a.parameters()`
expression inside `sort_by`). -/
def resolution (s : StreamDescriptor) : Nat :=
  match s.parameters with
  | some (.video (w, h)) => w * h % U32_MOD
  | _ => 0

/-- Pixel area as the specification words it: the mathematical product
width × height over the integers, with no 32-bit wrapping (0 when the
dimensions are missing). Stated only to compare the spec's reading against
the program's `resolution`. -/
def spec_pixel_area (s : StreamDescriptor) : Nat :=
  match s.parameters with
  | some (.video (w, h)) => w * h
  | _ => 0

/-- The filtering loop of `main`: streams are enumerated, and a stream goes
into the video candidate list iff its media is "video" and its encoding
appears in `VIDEO_CODEC_PRIORITY`. -/
def available_video_streams (streams : List StreamDescriptor) : List (Nat × StreamDescriptor) :=
  streams.enum.filter (fun p =>
    p.2.media == "video" &&
      VIDEO_CODEC_PRIORITY.any (fun q => q.1 == p.2.encoding_name))

/-- The filtering loop of `main`, audio arm: media is "audio" and the encoding
appears in `AUDIO_CODEC_PRIORITY` (the `else if` branch; a stream satisfying
the video condition never reaches this test, and no stream can satisfy both
since `media` cannot be both "video" and "audio"). -/
def available_audio_streams (streams : List StreamDescriptor) : List (Nat × StreamDescriptor) :=
  streams.enum.filter (fun p =>
    p.2.media == "audio" &&
      AUDIO_CODEC_PRIORITY.any (fun q => q.1 == p.2.encoding_name))

/-- The comparator given to `available_video_streams.sort_by`: descending
pixel area (`resolution_b.cmp(&resolution_a)`), ties broken by ascending
codec priority. -/
def video_cmp (a b : StreamDescriptor) : Ordering :=
  match compare (resolution b) (resolution a) with
  | .eq =>
      compare (get_codec_priority a.encoding_name VIDEO_CODEC_PRIORITY)
        (get_codec_priority b.encoding_name VIDEO_CODEC_PRIORITY)
  | o => o

/-- The comparator given to `available_audio_streams.sort_by`: ascending codec
priority only. -/
def audio_cmp (a b : StreamDescriptor) : Ordering :=
  compare (get_codec_priority a.encoding_name AUDIO_CODEC_PRIORITY)
    (get_codec_priority b.encoding_name AUDIO_CODEC_PRIORITY)

/-- The total preorder induced by `video_cmp` ("a sorts no later than b").
Rust's stable `sort_by` with comparator `c` produces a list sorted w.r.t.
`fun a b => c a b ≠ .gt`; we sort with Mathlib's `insertionSort`, which is
also a stable sort and hence extensionally equal on this total preorder. -/
def video_le (a b : Nat × StreamDescriptor) : Prop :=
  video_cmp a.2 b.2 ≠ Ordering.gt

/-- The total preorder induced by `audio_cmp`. -/
def audio_le (a b : Nat × StreamDescriptor) : Prop :=
  audio_cmp a.2 b.2 ≠ Ordering.gt

instance : DecidableRel video_le := fun a b => by
  unfold video_le; infer_instance

instance : DecidableRel audio_le := fun a b => by
  unfold audio_le; infer_instance

/-- Example input from the spec: two video candidates of equal resolution,
one "h264" and one "h265". -/
def ex_equal_res : List StreamDescriptor :=
  [⟨"video", "h264", some (.video (1920, 1080))⟩,
   ⟨"video", "h265", some (.video (1920, 1080))⟩]

/-- Example input from the spec: a 1920x1080 "h264" candidate against a
1280x720 "h265" candidate. -/
def ex_unequal_res : List StreamDescriptor :=
  [⟨"video", "h264", some (.video (1920, 1080))⟩,
   ⟨"video", "h265", some (.video (1280, 720))⟩]

/-- Example input exercising u32 overflow of the area product: a 1920x1080
"h265" candidate against a 65536x65536 "h264" candidate, whose true pixel
area is 2^32 but whose u32 product wraps to 0. -/
def ex_overflow : List StreamDescriptor :=
  [⟨"video", "h265", some (.video (1920, 1080))⟩,
   ⟨"video", "h264", some (.video (65536, 65536))⟩]

/-- The sorted video candidate list (`available_video_streams.sort_by(...)`). -/
def sorted_video_streams (streams : List StreamDescriptor) : List (Nat × StreamDescriptor) :=
  List.insertionSort video_le (available_video_streams streams)

/-- The sorted audio candidate list (`available_audio_streams.sort_by(...)`). -/
def sorted_audio_streams (streams : List StreamDescriptor) : List (Nat × StreamDescriptor) :=
  List.insertionSort audio_le (available_audio_streams streams)

/-- The selected video stream: `available_video_streams[0]` after sorting,
`none` exactly when the filtered candidate list is empty (the
`if available_video_streams.is_empty() { return; }` early exit). -/
def select_video (streams : List StreamDescriptor) : Option (Nat × StreamDescriptor) :=
  (sorted_video_streams streams).head?

/-- The selected audio stream: first of the sorted audio candidates if any
(`if !available_audio_streams.is_empty()`), otherwise absent. -/
def select_audio (streams : List StreamDescriptor) : Option (Nat × StreamDescriptor) :=
  (sorted_audio_streams streams).head?

/-- Startup selection stage of `main`: on an empty filtered video set the
process logs an error and returns (modelled as `none` — no tracks are built,
no session is ever served, and there is no retry path); otherwise one video
track and an optional audio track are produced. -/
def startup_select (streams : List StreamDescriptor) :
    Option ((Nat × StreamDescriptor) × Option (Nat × StreamDescriptor)) :=
  match select_video streams with
  | none => none
  | some v => some (v, select_audio streams)

/-! ### Session registry (`dashmap::DashMap<String, Arc<RTCPeerConnection>>`)

The registry is modelled as an association list with at most one entry per
key (dashmap keeps keys unique; `insert` replaces, `remove` deletes the
key's entry). Each dashmap operation is atomic, so the interleavings of
concurrent handler invocations linearize to sequences of these steps. -/

/-- The keys currently present in the registry. -/
def registryKeys {α : Type} (registry : List (String × α)) : List String :=
  registry.map (fun e => e.1)

/-- Lookup of a session by id (`DashMap::get`). -/
def lookupEntry {α : Type} (registry : List (String × α)) (k : String) : Option α :=
  (registry.find? (fun e => e.1 == k)).map (fun e => e.2)

/-- Removal of a session by id (`DashMap::remove`): returns the removed
value, if any, together with the registry afterwards; when the key is
absent the registry is returned unchanged. -/
def removeEntry {α : Type} (registry : List (String × α)) (k : String) :
    Option α × List (String × α) :=
  match registry.find? (fun e => e.1 == k) with
  | some e => (some e.2, registry.filter (fun e2 => !(e2.1 == k)))
  | none => (none, registry)

/-- Insertion of a session (`DashMap::insert`): replaces any entry under the
same key. -/
def insertEntry {α : Type} (registry : List (String × α)) (k : String) (v : α) :
    List (String × α) :=
  (k, v) :: registry.filter (fun e => !(e.1 == k))

/-! ### UUID v4 session identifiers (`uuid::Uuid::new_v4().to_string()`) -/

/-- Lowercase hex digit for a value below 16, by code point: digits start at
48, lowercase letters at 97. -/
def hexDigit (n : Nat) : Char :=
  if n < 10 then Char.ofNat (48 + n) else Char.ofNat (87 + n)

/-- Two-character lowercase hex rendering of a byte. -/
def byteToHex (b : Nat) : List Char :=
  [hexDigit (b / 16 % 16), hexDigit (b % 16)]

/-- Version/variant stamping of UUID v4: byte 6 keeps its low nibble and gets
version 4 in the high nibble; byte 8 keeps its low 6 bits and gets the RFC
4122 variant bits. -/
def uuid_v4_bytes (bytes : Fin 16 → Nat) : Fin 16 → Nat := fun i =>
  if i.val = 6 then bytes i % 16 + 0x40
  else if i.val = 8 then bytes i % 64 + 0x80
  else bytes i % 256

/-- The hyphenated textual form of a v4 UUID built from 16 random bytes
(8-4-4-4-12 lowercase hex groups), as produced by the uuid crate's
`to_string`. -/
def uuid_v4_string (bytes : Fin 16 → Nat) : String :=
  let b := uuid_v4_bytes bytes
  String.mk (byteToHex (b 0) ++ byteToHex (b 1) ++ byteToHex (b 2) ++ byteToHex (b 3) ++
    ['-'] ++ byteToHex (b 4) ++ byteToHex (b 5) ++
    ['-'] ++ byteToHex (b 6) ++ byteToHex (b 7) ++
    ['-'] ++ byteToHex (b 8) ++ byteToHex (b 9) ++
    ['-'] ++ byteToHex (b 10) ++ byteToHex (b 11) ++ byteToHex (b 12) ++
      byteToHex (b 13) ++ byteToHex (b 14) ++ byteToHex (b 15))

/-! ### WHEP signaling handlers

The SDP type and the peer-connection object are abstract (`σ` and `α`): the
webrtc-rs parser (`RTCSessionDescription::offer` composed with the lossy
UTF-8 decoding of the body bytes) is passed in as `parse`, and answer
generation (`create_answer` on the configured peer connection) as
`create_answer`. HTTP status codes are plain naturals. -/

/-- Minimal HTTP response surface produced by the handlers: status code,
headers, body. -/
structure HttpResponse where
  status : Nat
  headers : List (String × String)
  body : String
deriving DecidableEq, Repr

/-- First header with the given (already lowercased) name. -/
def getHeader (resp : HttpResponse) (name : String) : Option String :=
  (resp.headers.find? (fun h => h.1 == name)).map (fun h => h.2)

/-- Response built by `IntoResponse for SDPAnswer`: status 201 CREATED,
`Content-Type: application/sdp`, `Location: /resource/{id}`, body = the
answer SDP. -/
def SDPAnswer_into_response (answer_sdp : String) (id : String) : HttpResponse :=
  { status := 201
    headers := [("content-type", "application/sdp"), ("location", "/resource/" ++ id)]
    body := answer_sdp }

/-- Response for an extractor rejection or the delete handler: a bare status
code. -/
def statusResponse (st : Nat) : HttpResponse :=
  { status := st, headers := [], body := "" }

/-- Rust's `ct.split(';').next()`: the text before the first separator (the
whole text when the separator does not occur). -/
def split_first (sep : Char) : List Char → List Char
  | [] => []
  | c :: rest => if c = sep then [] else c :: split_first sep rest

/-- Rust's `str::trim` on a header value: leading and trailing whitespace
characters removed. -/
def trim_chars (cs : List Char) : List Char :=
  ((cs.dropWhile Char.isWhitespace).reverse.dropWhile Char.isWhitespace).reverse

/-- Body size limit passed to `axum::body::to_bytes` in
`SDPOffer::from_request`: `1024 * 16` bytes; larger bodies make extraction
fail with 400 BAD_REQUEST. -/
def BODY_LIMIT : Nat := 1024 * 16

/-- The `FromRequest` implementation for `SDPOffer`: the content-type's
media-type part (text before the first semicolon, trimmed; missing header
treated as the empty string) must be exactly "application/sdp", else 415;
then the body is read under `BODY_LIMIT` (failure gives 400); then the body
is parsed as an SDP offer (failure gives 400). -/
def SDPOffer_from_request {σ : Type} (parse : List Nat → Option σ)
    (contentType : Option String) (body : List Nat) : Except Nat σ :=
  let ct := contentType.getD ""
  if trim_chars (split_first ';' ct.data) ≠ "application/sdp".data then
    Except.error 415
  else if body.length > BODY_LIMIT then
    Except.error 400
  else
    match parse body with
    | some offer => Except.ok offer
    | none => Except.error 400

/-- The success path of the `whep_offer` handler, after a freshly generated
session id `id` and a new peer connection `pc`: the remote offer is applied,
an answer is generated, the session is inserted into the registry, and the
`SDPAnswer` response is returned. -/
def whep_offer {σ α : Type} (create_answer : σ → String) (pc : α) (id : String)
    (registry : List (String × α)) (offer : σ) :
    HttpResponse × List (String × α) :=
  let answer := create_answer offer
  (SDPAnswer_into_response answer id, insertEntry registry id pc)

/-- The POST /whep endpoint as routed by axum: the `SDPOffer` extractor runs
first, and a rejection is turned into a bare status response without the
handler body ever running (so the registry is untouched); on success the
handler body runs. -/
def whep_post {σ α : Type} (parse : List Nat → Option σ) (create_answer : σ → String)
    (pc : α) (id : String) (registry : List (String × α))
    (contentType : Option String) (body : List Nat) :
    HttpResponse × List (String × α) :=
  match SDPOffer_from_request parse contentType body with
  | Except.error st => (statusResponse st, registry)
  | Except.ok offer => whep_offer create_answer pc id registry offer

/-- Byte length of the UTF-8 encoding of one character. -/
def utf8CharSize (c : Char) : Nat :=
  if c.toNat < 128 then 1
  else if c.toNat < 2048 then 2
  else if c.toNat < 65536 then 3
  else 4

/-- Rust's `str::is_char_boundary` over the UTF-8 encoding of the char
list: byte index `n` is a boundary iff it lands exactly between encoded
characters (0 and the total byte length included); an index beyond the end
is not a boundary. A byte-range slice `&s[..n]` panics exactly when `n` is
not a boundary. -/
def is_char_boundary (cs : List Char) (n : Nat) : Bool :=
  match cs with
  | [] => n = 0
  | c :: rest =>
      if n = 0 then true
      else if n < utf8CharSize c then false
      else is_char_boundary rest (n - utf8CharSize c)

/-- Outcome of the delete handler: an HTTP status plus the registry
afterwards, or a panic (with the registry as the handler leaves it). -/
inductive DeleteResult (α : Type) where
  | responded (status : Nat) (registry : List (String × α))
  | panicked (registry : List (String × α))
deriving DecidableEq

/-- The DELETE /whep/resource/{id} handler: `peer_connections.remove(&id)`;
on a hit the connection is closed, `info!` slices `&id[..8]` for its log
line and 204 NO_CONTENT is returned; on a miss `warn!` also slices
`&id[..8]` and 404 NOT_FOUND is returned with the registry untouched. Both
log lines panic when byte 8 is not a char boundary of the id — in
particular for any id shorter than 8 bytes — in which case no response is
produced. -/
def whep_delete {α : Type} (registry : List (String × α)) (id : String) :
    DeleteResult α :=
  let r := removeEntry registry id
  match r.1 with
  | some _ =>
      if is_char_boundary id.data 8 then .responded 204 r.2 else .panicked r.2
  | none =>
      if is_char_boundary id.data 8 then .responded 404 r.2 else .panicked r.2

/-! ### Ingest pump (bounded channels + `try_send`) -/

/-- An RTP packet as the ingest loop sees it: its upstream stream index
(`rtp.stream_id()`) and raw payload (`rtp.raw()`). -/
structure Packet where
  stream_id : Nat
  raw : List Nat
deriving DecidableEq, Repr

/-- One item yielded by the upstream RTSP packet stream, mirroring the four
match arms of the ingest loop: `Ok(PacketItem::Rtp)`, `Ok(PacketItem::Rtcp)`
(logged at trace level only), any other `Ok` variant (ignored), and `Err`
(logged, loop continues). -/
inductive IngestItem where
  | rtp (p : Packet)
  | rtcp
  | otherOk
  | err
deriving DecidableEq, Repr

/-- Capacity of the per-kind `tokio::sync::mpsc` channels created in `main`:
`channel::<ReceivedPacket>(100)`. -/
def CHANNEL_CAPACITY : Nat := 100

/-- `Sender::try_send` on a bounded channel modelled as a queue: enqueue at
the back when below capacity, otherwise fail (the caller drops the packet). -/
def try_send (queue : List Packet) (p : Packet) : Option (List Packet) :=
  if queue.length < CHANNEL_CAPACITY then some (queue ++ [p]) else none

/-- Observable state of the ingest loop: the two bounded queues plus
counters for the logged events ("buffer full, dropping packet" and
"Received RTP for unknown stream ID"). -/
structure IngestState where
  video_queue : List Packet
  audio_queue : List Packet
  drops : Nat
  unknown_warns : Nat
deriving DecidableEq, Repr

/-- One iteration of the main RTSP read loop: route an RTP packet by its
stream id to the video channel, else (when an audio track exists) to the
audio channel, else warn; full channels drop the packet and count the log;
RTCP, other items and upstream errors leave the state unchanged (they are
only logged) and never abort the loop. -/
def ingest_step (video_id : Nat) (audio_id : Option Nat) (st : IngestState) :
    IngestItem → IngestState
  | .rtp rtp =>
    if rtp.stream_id = video_id then
      match try_send st.video_queue rtp with
      | some q => { st with video_queue := q }
      | none => { st with drops := st.drops + 1 }
    else
      match audio_id with
      | some aid =>
        if rtp.stream_id = aid then
          match try_send st.audio_queue rtp with
          | some q => { st with audio_queue := q }
          | none => { st with drops := st.drops + 1 }
        else { st with unknown_warns := st.unknown_warns + 1 }
      | none => { st with unknown_warns := st.unknown_warns + 1 }
  | .rtcp => st
  | .otherOk => st
  | .err => st

/-- The ingest loop over a finite prefix of the upstream packet stream. -/
def ingest_loop (video_id : Nat) (audio_id : Option Nat) (st : IngestState) :
    List IngestItem → IngestState
  | [] => st
  | item :: rest => ingest_loop video_id audio_id (ingest_step video_id audio_id st item) rest

/-! ### Writer tasks -/

/-- Outcome of `TrackLocalStaticRTP::write`: the distinguished
`WebRTCError::ErrClosedPipe`, or any other error (carrying its message). -/
inductive WriteError where
  | errClosedPipe
  | other (msg : String)
deriving DecidableEq, Repr

/-- One writer task: for each dequeued packet call `write`; on success
continue; on an error other than `ErrClosedPipe` log the message and
continue; on `ErrClosedPipe` break out silently. Returns the packets whose
write was attempted and the logged error messages. -/
def writer_loop (write : Packet → Except WriteError Unit) :
    List Packet → List Packet × List String
  | [] => ([], [])
  | rtp :: rest =>
    match write rtp with
    | Except.ok _ =>
        let r := writer_loop write rest
        (rtp :: r.1, r.2)
    | Except.error (.other msg) =>
        let r := writer_loop write rest
        (rtp :: r.1, msg :: r.2)
    | Except.error .errClosedPipe => ([rtp], [])

/-! ## Helper lemmas about the video sort order -/

theorem video_le_iff (a b : Nat × StreamDescriptor) :
    video_le a b ↔ (resolution b.2 < resolution a.2 ∨
      (resolution b.2 = resolution a.2 ∧
        get_codec_priority a.2.encoding_name VIDEO_CODEC_PRIORITY ≤
          get_codec_priority b.2.encoding_name VIDEO_CODEC_PRIORITY)) := by
  unfold video_le video_cmp
  rcases Nat.lt_trichotomy (resolution b.2) (resolution a.2) with h | h | h
  · rw [Nat.compare_eq_lt.mpr h]
    simp [h]
  · rw [Nat.compare_eq_eq.mpr h]
    simp [h, Nat.compare_eq_gt, Nat.not_lt]
  · rw [Nat.compare_eq_gt.mpr h]
    simp [h, Nat.lt_asymm h]
    omega

theorem video_le_total (a b : Nat × StreamDescriptor) : video_le a b ∨ video_le b a := by
  rw [video_le_iff, video_le_iff]
  omega

theorem video_le_trans (a b c : Nat × StreamDescriptor) :
    video_le a b → video_le b c → video_le a c := by
  rw [video_le_iff, video_le_iff, video_le_iff]
  omega

/-- Core correctness of the video selection: on a non-empty filtered
candidate list, the selected stream is a candidate of maximal pixel area,
and of minimal codec priority among the candidates of that area. -/
theorem select_video_best (streams : List StreamDescriptor)
    (h : available_video_streams streams ≠ []) :
    ∃ sel, select_video streams = some sel ∧
      sel ∈ available_video_streams streams ∧
      (∀ c ∈ available_video_streams streams, resolution c.2 ≤ resolution sel.2) ∧
      (∀ c ∈ available_video_streams streams,
        resolution c.2 = resolution sel.2 →
        get_codec_priority sel.2.encoding_name VIDEO_CODEC_PRIORITY ≤
          get_codec_priority c.2.encoding_name VIDEO_CODEC_PRIORITY) := by
  haveI : IsTotal (Nat × StreamDescriptor) video_le := ⟨video_le_total⟩
  haveI : IsTrans (Nat × StreamDescriptor) video_le := ⟨video_le_trans⟩
  have hperm : List.Perm (sorted_video_streams streams) (available_video_streams streams) :=
    List.perm_insertionSort video_le (available_video_streams streams)
  have hsorted : (sorted_video_streams streams).Sorted video_le :=
    List.sorted_insertionSort video_le (available_video_streams streams)
  cases heq : sorted_video_streams streams with
  | nil =>
      rw [heq] at hperm
      exact absurd hperm.symm.eq_nil h
  | cons x rest =>
      refine ⟨x, by simp [select_video, heq], ?_, ?_, ?_⟩
      · exact hperm.subset (heq ▸ List.mem_cons_self x rest)
      · intro c hc
        have hcS := hperm.symm.subset hc
        rw [heq] at hcS hsorted
        rcases List.mem_cons.mp hcS with rfl | hcr
        · exact le_refl _
        · have hle := (video_le_iff x c).mp (List.rel_of_sorted_cons hsorted c hcr)
          omega
      · intro c hc hres
        have hcS := hperm.symm.subset hc
        rw [heq] at hcS hsorted
        rcases List.mem_cons.mp hcS with rfl | hcr
        · exact le_refl _
        · have hle := (video_le_iff x c).mp (List.rel_of_sorted_cons hsorted c hcr)
          omega

/-- Membership of the selected video stream in the filtered candidate list. -/
theorem select_video_mem {streams : List StreamDescriptor} {sel : Nat × StreamDescriptor}
    (h : select_video streams = some sel) :
    sel ∈ available_video_streams streams := by
  have hperm : List.Perm (sorted_video_streams streams) (available_video_streams streams) :=
    List.perm_insertionSort video_le (available_video_streams streams)
  cases heq : sorted_video_streams streams with
  | nil => rw [select_video, heq] at h; exact absurd h (by simp)
  | cons x rest =>
      rw [select_video, heq] at h
      simp at h
      exact hperm.subset (heq ▸ h ▸ List.mem_cons_self x rest)

/-! ## Claim theorems: stream selection -/

/-- C1 (amended): for every upstream descriptor list whose filtered video
candidate set is non-empty, the selector picks a candidate of greatest
pixel area as the program computes it — the u32 product width × height,
wrapping modulo 2^32 in release builds, with missing dimensions counting as
area 0 — breaking area ties by smallest codec priority; in particular at
equal resolutions "h265" beats "h264", and at unequal (non-overflowing)
resolutions the higher-resolution stream wins regardless of codec rank. The
unamended claim, which reads the area as the mathematical product, fails on
dimensions whose product reaches 2^32 (see the counterexample). -/
theorem c1_selection_correct :
    (∀ streams : List StreamDescriptor, available_video_streams streams ≠ [] →
      ∃ sel, select_video streams = some sel ∧
        sel ∈ available_video_streams streams ∧
        (∀ c ∈ available_video_streams streams, resolution c.2 ≤ resolution sel.2) ∧
        (∀ c ∈ available_video_streams streams,
          resolution c.2 = resolution sel.2 →
          get_codec_priority sel.2.encoding_name VIDEO_CODEC_PRIORITY ≤
            get_codec_priority c.2.encoding_name VIDEO_CODEC_PRIORITY)) ∧
    (select_video ex_equal_res).map (fun p => p.2.encoding_name) = some "h265" ∧
    (select_video ex_unequal_res).map (fun p => p.2.encoding_name) = some "h264" :=
  ⟨select_video_best, by decide, by decide⟩

/-- C1 witness: the general selection property instantiated at the concrete
equal-resolution candidate pair. -/
theorem c1_selection_correct_witness :
    available_video_streams ex_equal_res ≠ [] ∧
    (∃ sel, select_video ex_equal_res = some sel ∧
      sel ∈ available_video_streams ex_equal_res ∧
      (∀ c ∈ available_video_streams ex_equal_res, resolution c.2 ≤ resolution sel.2) ∧
      (∀ c ∈ available_video_streams ex_equal_res,
        resolution c.2 = resolution sel.2 →
        get_codec_priority sel.2.encoding_name VIDEO_CODEC_PRIORITY ≤
          get_codec_priority c.2.encoding_name VIDEO_CODEC_PRIORITY)) :=
  ⟨by decide, c1_selection_correct.1 ex_equal_res (by decide)⟩

/-- C1 counterexample to the unamended claim: among the candidates of
`ex_overflow`, the 65536x65536 stream has the strictly greatest
mathematical pixel area (2^32), yet the selector picks the 1920x1080
stream, because the program's u32 area product wraps 65536 * 65536 to 0. -/
theorem c1_selection_correct_counterexample :
    select_video ex_overflow =
      some (0, ⟨"video", "h265", some (.video (1920, 1080))⟩) ∧
    (1, (⟨"video", "h264", some (.video (65536, 65536))⟩ : StreamDescriptor)) ∈
      available_video_streams ex_overflow ∧
    spec_pixel_area ⟨"video", "h265", some (.video (1920, 1080))⟩ <
      spec_pixel_area ⟨"video", "h264", some (.video (65536, 65536))⟩ :=
  ⟨by decide, by decide, by decide⟩

/-- C8: a stream whose encoding is not in its kind's priority table is
excluded at the filtering stage: it never appears among the candidates of
either kind, and whatever stream the selector returns has a listed
encoding — so an unlisted stream is never selected even when it is the only
video stream. -/
theorem c8_unlisted_excluded (streams : List StreamDescriptor) :
    (∀ c ∈ available_video_streams streams,
      VIDEO_CODEC_PRIORITY.any (fun q => q.1 == c.2.encoding_name) = true) ∧
    (∀ c ∈ available_audio_streams streams,
      AUDIO_CODEC_PRIORITY.any (fun q => q.1 == c.2.encoding_name) = true) ∧
    (∀ sel, select_video streams = some sel →
      VIDEO_CODEC_PRIORITY.any (fun q => q.1 == sel.2.encoding_name) = true) := by
  refine ⟨?_, ?_, ?_⟩
  · intro c hc
    have h2 := (List.mem_filter.mp hc).2
    simp only [Bool.and_eq_true] at h2
    exact h2.2
  · intro c hc
    have h2 := (List.mem_filter.mp hc).2
    simp only [Bool.and_eq_true] at h2
    exact h2.2
  · intro sel hsel
    have hmem := select_video_mem hsel
    have h2 := (List.mem_filter.mp hmem).2
    simp only [Bool.and_eq_true] at h2
    exact h2.2

/-- C8 witness: the selection clause instantiated at the concrete
equal-resolution pair, whose selected stream is the "h265" one. -/
theorem c8_unlisted_excluded_witness :
    VIDEO_CODEC_PRIORITY.any
      (fun q => q.1 == (⟨"video", "h265", some (.video (1920, 1080))⟩ :
        StreamDescriptor).encoding_name) = true :=
  (c8_unlisted_excluded ex_equal_res).2.2
    (1, ⟨"video", "h265", some (.video (1920, 1080))⟩) (by decide)

/-- C9: an empty filtered video candidate set is fatal at startup: no video
stream is selected and the startup selection stage aborts (modelled by
`startup_select` returning `none`), so the pipeline never proceeds to serve
a session and no retry happens. -/
theorem c9_no_video_fatal (streams : List StreamDescriptor)
    (h : available_video_streams streams = []) :
    select_video streams = none ∧ startup_select streams = none := by
  have hs : sorted_video_streams streams = [] := by
    simp [sorted_video_streams, h]
  constructor
  · simp [select_video, hs]
  · simp [startup_select, select_video, hs]

/-- C9 witness: a descriptor set with only an audio stream and an
unranked-encoding video stream fails selection. -/
theorem c9_no_video_fatal_witness :
    select_video [⟨"audio", "opus", none⟩, ⟨"video", "av1", none⟩] = none ∧
    startup_select [⟨"audio", "opus", none⟩, ⟨"video", "av1", none⟩] = none :=
  c9_no_video_fatal [⟨"audio", "opus", none⟩, ⟨"video", "av1", none⟩] (by decide)

/-! ## Helper lemmas about the session registry -/

theorem registryKeys_cons {α : Type} (e : String × α) (t : List (String × α)) :
    registryKeys (e :: t) = e.1 :: registryKeys t := rfl

theorem filter_ne_key_of_not_mem {α : Type} {registry : List (String × α)} {k : String}
    (h : k ∉ registryKeys registry) :
    registry.filter (fun e => !(e.1 == k)) = registry := by
  apply List.filter_eq_self.mpr
  intro e he
  simp only [Bool.not_eq_true', beq_eq_false_iff_ne]
  intro hek
  exact h (List.mem_map.mpr ⟨e, he, hek⟩)

theorem length_filter_ne_key {α : Type} {registry : List (String × α)} {k : String}
    (hnd : (registryKeys registry).Nodup) (hmem : k ∈ registryKeys registry) :
    (registry.filter (fun e => !(e.1 == k))).length + 1 = registry.length := by
  induction registry with
  | nil => simp [registryKeys] at hmem
  | cons e t ih =>
      rw [registryKeys_cons] at hnd hmem
      obtain ⟨hhd, htl⟩ := List.nodup_cons.mp hnd
      rw [List.filter_cons]
      by_cases hek : e.1 = k
      · have hknot : k ∉ registryKeys t := hek ▸ hhd
        simp [hek, filter_ne_key_of_not_mem hknot]
      · have hmem' : k ∈ registryKeys t := by
          rcases List.mem_cons.mp hmem with h1 | h1
          · exact absurd h1.symm hek
          · exact h1
        have hbeq : (e.1 == k) = false := beq_eq_false_iff_ne.mpr hek
        have hih := ih htl hmem'
        simp only [hbeq, Bool.not_false, if_true, List.length_cons]
        omega

theorem find?_key_eq_none {α : Type} {registry : List (String × α)} {k : String} :
    registry.find? (fun e => e.1 == k) = none ↔ k ∉ registryKeys registry := by
  rw [List.find?_eq_none]
  constructor
  · intro h hk
    rcases List.mem_map.mp hk with ⟨e, he, hek⟩
    exact h e he (by simpa using hek)
  · intro h e he hbeq
    exact h (List.mem_map.mpr ⟨e, he, by simpa using hbeq⟩)

theorem not_mem_keys_filter {α : Type} (registry : List (String × α)) (k : String) :
    k ∉ registryKeys (registry.filter (fun e => !(e.1 == k))) := by
  intro hk
  rcases List.mem_map.mp hk with ⟨e, he, hek⟩
  have h2 := (List.mem_filter.mp he).2
  rw [hek] at h2
  simp at h2

theorem removeEntry_not_mem {α : Type} {registry : List (String × α)} {k : String}
    (h : k ∉ registryKeys registry) :
    removeEntry registry k = (none, registry) := by
  unfold removeEntry
  rw [find?_key_eq_none.mpr h]

theorem removeEntry_mem {α : Type} {registry : List (String × α)} {k : String}
    (hmem : k ∈ registryKeys registry) :
    (removeEntry registry k).1.isSome = true ∧
    (removeEntry registry k).2 = registry.filter (fun e => !(e.1 == k)) := by
  unfold removeEntry
  cases hfind : registry.find? (fun e => e.1 == k) with
  | none => exact absurd hmem (find?_key_eq_none.mp hfind)
  | some e => simp

/-! ## Claim theorems: session registry lifecycle -/

/-- C3: both teardown paths (the explicit DELETE and the terminal
connection-state callback) execute the same atomic registry removal
`peer_connections.remove(&id)`; since each dashmap removal is atomic, any
interleaving of the two racing invocations linearizes to two sequential
removals of the same id. Starting from a registry containing the id, the
first removal succeeds, the second finds nothing, leaves the registry
untouched (a benign no-op), and the registry size decreases by exactly
one. -/
theorem c3_at_most_once_teardown {α : Type} (registry : List (String × α)) (id : String)
    (hnd : (registryKeys registry).Nodup) (hmem : id ∈ registryKeys registry) :
    (removeEntry registry id).1.isSome = true ∧
    (removeEntry (removeEntry registry id).2 id).1 = none ∧
    (removeEntry (removeEntry registry id).2 id).2 = (removeEntry registry id).2 ∧
    (removeEntry registry id).2.length + 1 = registry.length := by
  obtain ⟨h1, h2⟩ := removeEntry_mem hmem
  have hnm := not_mem_keys_filter registry id
  rw [h2]
  refine ⟨h1, ?_, ?_, ?_⟩
  · simp [removeEntry_not_mem hnm]
  · simp [removeEntry_not_mem hnm]
  · exact length_filter_ne_key hnd hmem

/-- C3 witness: the race outcome at a concrete one-entry registry. -/
theorem c3_at_most_once_teardown_witness :
    (removeEntry [("a", 0)] "a").1.isSome = true ∧
    (removeEntry (removeEntry [("a", 0)] "a").2 "a").1 = none ∧
    (removeEntry (removeEntry [("a", 0)] "a").2 "a").2 = (removeEntry [("a", 0)] "a").2 ∧
    (removeEntry [("a", 0)] "a").2.length + 1 = ([("a", 0)] : List (String × Nat)).length :=
  c3_at_most_once_teardown [("a", 0)] "a" (by decide) (by decide)

/-- C4: the claim (and the spec's "must not panic") fails on the code. The
miss branch of the delete handler runs `warn!("... {}", &id[..8])`
(`main.rs:612`), a byte slice of the caller-supplied path segment: for an
unknown id shorter than 8 bytes — here "ab" against an empty registry — the
slice panics and no 404 is ever produced, while a 36-character UUID-shaped
unknown id does get the claimed 404 with the registry unchanged. -/
theorem c4_unknown_short_id_panics :
    whep_delete ([] : List (String × Nat)) "ab" = DeleteResult.panicked [] ∧
    whep_delete ([] : List (String × Nat)) "123e4567-e89b-12d3-a456-426614174000" =
      DeleteResult.responded 404 [] :=
  ⟨by decide, by decide⟩

/-! ## Helper lemmas about the offer path -/

theorem uuid_v4_string_length (b : Fin 16 → Nat) : (uuid_v4_string b).length = 36 := by
  simp [uuid_v4_string, byteToHex, String.length]

theorem from_request_ok {σ : Type} {parse : List Nat → Option σ} {ct : Option String}
    {body : List Nat} {offer : σ}
    (hct : trim_chars (split_first ';' (ct.getD "").data) = "application/sdp".data)
    (hsize : body.length ≤ BODY_LIMIT)
    (hparse : parse body = some offer) :
    SDPOffer_from_request parse ct body = Except.ok offer := by
  have hns : ¬ (body.length > BODY_LIMIT) := by omega
  simp [SDPOffer_from_request, hct, hns, hparse]

/-! ## Claim theorems: offer endpoint -/

/-- C2: a POST offer with content-type application/sdp and a body that
parses as an SDP offer is answered with status 201, a Content-Type header of
application/sdp, a Location header /resource/{id} whose id is the freshly
generated 36-character UUID string, and the answer SDP as body; the registry
gains exactly one entry, keyed by that id (UUID freshness is the
`hfresh` hypothesis — collision of `Uuid::new_v4` is cryptographically
negligible). -/
theorem c2_offer_success {σ α : Type} (parse : List Nat → Option σ)
    (create_answer : σ → String) (pc : α) (b : Fin 16 → Nat)
    (registry : List (String × α)) (ct : Option String) (body : List Nat) (offer : σ)
    (hct : trim_chars (split_first ';' (ct.getD "").data) = "application/sdp".data)
    (hsize : body.length ≤ BODY_LIMIT)
    (hparse : parse body = some offer)
    (hfresh : uuid_v4_string b ∉ registryKeys registry) :
    (whep_post parse create_answer pc (uuid_v4_string b) registry ct body).1.status = 201 ∧
    getHeader (whep_post parse create_answer pc (uuid_v4_string b) registry ct body).1
      "content-type" = some "application/sdp" ∧
    getHeader (whep_post parse create_answer pc (uuid_v4_string b) registry ct body).1
      "location" = some ("/resource/" ++ uuid_v4_string b) ∧
    (uuid_v4_string b).length = 36 ∧
    (whep_post parse create_answer pc (uuid_v4_string b) registry ct body).1.body =
      create_answer offer ∧
    (whep_post parse create_answer pc (uuid_v4_string b) registry ct body).2.length =
      registry.length + 1 ∧
    lookupEntry (whep_post parse create_answer pc (uuid_v4_string b) registry ct body).2
      (uuid_v4_string b) = some pc := by
  have hpost : whep_post parse create_answer pc (uuid_v4_string b) registry ct body =
      whep_offer create_answer pc (uuid_v4_string b) registry offer := by
    simp [whep_post, from_request_ok hct hsize hparse]
  rw [hpost]
  refine ⟨rfl, ?_, ?_, uuid_v4_string_length b, rfl, ?_, ?_⟩
  · simp [whep_offer, SDPAnswer_into_response, getHeader]
  · simp [whep_offer, SDPAnswer_into_response, getHeader]
  · simp [whep_offer, insertEntry, filter_ne_key_of_not_mem hfresh]
  · simp [whep_offer, lookupEntry, insertEntry]

/-- C2 witness: the offer path at fully concrete inputs (trivial parser and
answer generator, empty registry, zero UUID bytes, empty body). -/
theorem c2_offer_success_witness :
    (whep_post (fun _ => some ()) (fun _ => "answer") 7 (uuid_v4_string (fun _ => 0)) []
      (some "application/sdp") []).1.status = 201 ∧
    getHeader (whep_post (fun _ => some ()) (fun _ => "answer") 7 (uuid_v4_string (fun _ => 0))
      [] (some "application/sdp") []).1 "content-type" = some "application/sdp" ∧
    getHeader (whep_post (fun _ => some ()) (fun _ => "answer") 7 (uuid_v4_string (fun _ => 0))
      [] (some "application/sdp") []).1 "location" =
        some ("/resource/" ++ uuid_v4_string (fun _ => 0)) ∧
    (uuid_v4_string (fun _ => 0)).length = 36 ∧
    (whep_post (fun _ => some ()) (fun _ => "answer") 7 (uuid_v4_string (fun _ => 0)) []
      (some "application/sdp") []).1.body = "answer" ∧
    (whep_post (fun _ => some ()) (fun _ => "answer") 7 (uuid_v4_string (fun _ => 0)) []
      (some "application/sdp") []).2.length = ([] : List (String × Nat)).length + 1 ∧
    lookupEntry (whep_post (fun _ => some ()) (fun _ => "answer") 7 (uuid_v4_string (fun _ => 0))
      [] (some "application/sdp") []).2 (uuid_v4_string (fun _ => 0)) = some 7 :=
  c2_offer_success (fun _ => some ()) (fun _ => "answer") 7 (fun _ => 0) []
    (some "application/sdp") [] () (by decide) (by decide) rfl (by simp [registryKeys])

/-- C7: a POST offer whose content-type media part is not application/sdp is
rejected with 415 before the handler body runs, leaving the registry
unchanged; with the right content-type, a body the SDP parser rejects is
answered with 400, also leaving the registry unchanged. -/
theorem c7_reject_semantics {σ α : Type} (parse : List Nat → Option σ)
    (create_answer : σ → String) (pc : α) (id : String)
    (registry : List (String × α)) (ct : Option String) (body : List Nat) :
    (trim_chars (split_first ';' (ct.getD "").data) ≠ "application/sdp".data →
      whep_post parse create_answer pc id registry ct body = (statusResponse 415, registry)) ∧
    (trim_chars (split_first ';' (ct.getD "").data) = "application/sdp".data →
      parse body = none →
      whep_post parse create_answer pc id registry ct body = (statusResponse 400, registry)) := by
  constructor
  · intro h
    simp [whep_post, SDPOffer_from_request, h]
  · intro hct hparse
    by_cases hlen : body.length > BODY_LIMIT
    · simp [whep_post, SDPOffer_from_request, hct, hlen]
    · simp [whep_post, SDPOffer_from_request, hct, hlen, hparse]

/-- C7 witness: a text/plain offer is answered 415 with the registry
untouched, and an unparseable application/sdp body is answered 400. -/
theorem c7_reject_semantics_witness :
    whep_post (fun _ => some ()) (fun _ => "answer") 7 "id" [("a", 7)]
      (some "text/plain") [] = (statusResponse 415, [("a", 7)]) ∧
    whep_post (fun _ => (none : Option Unit)) (fun _ => "answer") 7 "id" [("a", 7)]
      (some "application/sdp") [] = (statusResponse 400, [("a", 7)]) :=
  ⟨(c7_reject_semantics (fun _ => some ()) (fun _ => "answer") 7 "id" [("a", 7)]
      (some "text/plain") []).1 (by decide),
   (c7_reject_semantics (fun _ => (none : Option Unit)) (fun _ => "answer") 7 "id" [("a", 7)]
      (some "application/sdp") []).2 (by decide) rfl⟩

/-- C10: the body extractor enforces a 16 KiB limit (`1024 * 16` bytes): an
application/sdp POST whose body exceeds 16384 bytes fails extraction with
400 and no session is created, the registry staying unchanged. -/
theorem c10_body_size_limit {σ α : Type} (parse : List Nat → Option σ)
    (create_answer : σ → String) (pc : α) (id : String)
    (registry : List (String × α)) (ct : Option String) (body : List Nat)
    (hct : trim_chars (split_first ';' (ct.getD "").data) = "application/sdp".data)
    (hbig : body.length > 16384) :
    BODY_LIMIT = 16384 ∧
    whep_post parse create_answer pc id registry ct body = (statusResponse 400, registry) := by
  refine ⟨by decide, ?_⟩
  have hlen : body.length > BODY_LIMIT := by
    have : BODY_LIMIT = 16384 := by decide
    omega
  simp [whep_post, SDPOffer_from_request, hct, hlen]

/-- C10 witness: a 16385-byte application/sdp body is rejected with 400. -/
theorem c10_body_size_limit_witness :
    BODY_LIMIT = 16384 ∧
    whep_post (fun _ => some ()) (fun _ => "answer") 7 "id" [("a", 7)]
      (some "application/sdp") (List.replicate 16385 0) = (statusResponse 400, [("a", 7)]) :=
  c10_body_size_limit (fun _ => some ()) (fun _ => "answer") 7 "id" [("a", 7)]
    (some "application/sdp") (List.replicate 16385 0) (by decide)
    (by rw [List.length_replicate]; omega)

/-! ## Claim theorems: ingest pump and writer tasks -/

/-- C5: the per-kind channels have fixed capacity 100, and routing a matching
RTP packet through one ingest iteration is non-blocking: below capacity the
packet is appended to that kind's queue; at capacity the queue is left as it
is, the packet is dropped and the drop is counted/logged. The step function
is total — a full queue is never an error — and the loop always continues
with the next item. -/
theorem c5_nonblocking_ingest (v : Nat) (a : Option Nat) (st : IngestState) (rtp : Packet) :
    CHANNEL_CAPACITY = 100 ∧
    (rtp.stream_id = v →
      (st.video_queue.length < CHANNEL_CAPACITY →
        ingest_step v a st (.rtp rtp) = { st with video_queue := st.video_queue ++ [rtp] }) ∧
      (¬ st.video_queue.length < CHANNEL_CAPACITY →
        ingest_step v a st (.rtp rtp) = { st with drops := st.drops + 1 })) ∧
    (∀ x, a = some x → rtp.stream_id = x → rtp.stream_id ≠ v →
      (st.audio_queue.length < CHANNEL_CAPACITY →
        ingest_step v a st (.rtp rtp) = { st with audio_queue := st.audio_queue ++ [rtp] }) ∧
      (¬ st.audio_queue.length < CHANNEL_CAPACITY →
        ingest_step v a st (.rtp rtp) = { st with drops := st.drops + 1 })) ∧
    (∀ item rest, ingest_loop v a st (item :: rest) =
      ingest_loop v a (ingest_step v a st item) rest) := by
  refine ⟨rfl, fun hv => ⟨?_, ?_⟩, fun x ha hx hnv => ⟨?_, ?_⟩, fun item rest => rfl⟩
  · intro hlt
    simp [ingest_step, hv, try_send, hlt]
  · intro hge
    simp [ingest_step, hv, try_send, hge]
  · intro hlt
    simp only [ingest_step]
    rw [if_neg hnv, ha]
    simp [hx, try_send, hlt]
  · intro hge
    simp only [ingest_step]
    rw [if_neg hnv, ha]
    simp [hx, try_send, hge]

/-- C5 witness: one matching video packet is enqueued into an empty queue,
and one matching video packet is dropped (with the drop counted) when the
queue already holds 100 packets. -/
theorem c5_nonblocking_ingest_witness :
    ingest_step 0 none ⟨[], [], 0, 0⟩ (.rtp ⟨0, [1]⟩) = ⟨[⟨0, [1]⟩], [], 0, 0⟩ ∧
    ingest_step 0 none ⟨List.replicate 100 ⟨0, []⟩, [], 0, 0⟩ (.rtp ⟨0, [1]⟩) =
      ⟨List.replicate 100 ⟨0, []⟩, [], 1, 0⟩ := by
  constructor
  · exact ((c5_nonblocking_ingest 0 none ⟨[], [], 0, 0⟩ ⟨0, [1]⟩).2.1 rfl).1 (by decide)
  · exact ((c5_nonblocking_ingest 0 none ⟨List.replicate 100 ⟨0, []⟩, [], 0, 0⟩ ⟨0, [1]⟩).2.1
      rfl).2 (by simp [CHANNEL_CAPACITY, List.length_replicate])

/-- C6: the writer task's error policy. If no write fails with
`ErrClosedPipe`, every packet of the sequence is attempted — a failed write
never prevents subsequent packets from being attempted. A write failing with
`ErrClosedPipe` terminates the task silently (only that packet attempted,
nothing logged); a write failing with any other error logs the message and
the loop continues with the remaining packets. -/
theorem c6_writer_error_policy (write : Packet → Except WriteError Unit) (ps : List Packet) :
    ((∀ p ∈ ps, write p ≠ Except.error WriteError.errClosedPipe) →
      (writer_loop write ps).1 = ps) ∧
    (∀ p rest, ps = p :: rest → write p = Except.error WriteError.errClosedPipe →
      writer_loop write ps = ([p], [])) ∧
    (∀ p rest msg, ps = p :: rest → write p = Except.error (WriteError.other msg) →
      writer_loop write ps =
        (p :: (writer_loop write rest).1, msg :: (writer_loop write rest).2)) := by
  refine ⟨?_, ?_, ?_⟩
  · intro h
    induction ps with
    | nil => rfl
    | cons p rest ih =>
        have hp := h p (List.mem_cons_self p rest)
        cases hw : write p with
        | ok u =>
            simp only [writer_loop, hw]
            rw [ih (fun q hq => h q (List.mem_cons_of_mem p hq))]
        | error e =>
            cases e with
            | errClosedPipe => exact absurd hw hp
            | other msg =>
                simp only [writer_loop, hw]
                rw [ih (fun q hq => h q (List.mem_cons_of_mem p hq))]
  · intro p rest hps hw
    subst hps
    simp [writer_loop, hw]
  · intro p rest msg hps hw
    subst hps
    simp [writer_loop, hw]

/-- C6 witness: a closed-pipe write on the first packet stops the task
silently with the second packet unattempted, while an ordinary failing write
on the first packet is logged and the second packet is still attempted. -/
theorem c6_writer_error_policy_witness :
    writer_loop (fun _ => Except.error WriteError.errClosedPipe) [⟨0, []⟩, ⟨1, []⟩] =
      ([⟨0, []⟩], []) ∧
    writer_loop (fun p => if p.stream_id = 0 then Except.error (WriteError.other "io") else
      Except.ok ()) [⟨0, []⟩, ⟨1, []⟩] = ([⟨0, []⟩, ⟨1, []⟩], ["io"]) := by
  constructor
  · exact (c6_writer_error_policy (fun _ => Except.error WriteError.errClosedPipe)
      [⟨0, []⟩, ⟨1, []⟩]).2.1 ⟨0, []⟩ [⟨1, []⟩] rfl rfl
  · have h := (c6_writer_error_policy (fun p => if p.stream_id = 0 then
      Except.error (WriteError.other "io") else Except.ok ()) [⟨0, []⟩, ⟨1, []⟩]).2.2
      ⟨0, []⟩ [⟨1, []⟩] "io" rfl rfl
    rw [h]
    decide

end RtspToWebrtc
